import Mathlib

/-!
Shallow embedding of the denounce receiver-control tool (src/main.rs and
src/heos.rs). Sockets are modeled as connection handles carrying the endpoint
they were opened to; the outside world is a record holding the scripted TCP
connect outcomes, the chronological write trace tagged with the destination
handle, the JSON values the HEOS socket will deliver, and the background
readers spawned so far together with the socket each one tails.
-/

namespace Denounce

/-- JSON values as serde_json parses them. Numbers are restricted to integers,
which is all the decoded field types (i64 pid, u8 lineout) accept. -/
inductive Json where
  | null
  | bool (b : Bool)
  | num (n : Int)
  | str (s : String)
  | arr (elems : List Json)
  | obj (fields : List (String × Json))

/-- First binding of a key in a JSON object, none otherwise. Serde rejects
duplicate keys outright; the envelopes considered here never repeat a key, so
first-match lookup agrees with serde on every input in scope. -/
def Json.getField : Json → String → Option Json
  | .obj fields, key => fields.lookup key
  | _, _ => none

/-- heos.rs lines 16-21: enum HeosResult with a serde rename-all lowercase
attribute. The derived deserializer matches the wire string against the
renamed variant names exactly (serde renaming is not case-insensitive). -/
inductive HeosResult where
  | success
  | fail
deriving DecidableEq

/-- Derived deserializer for HeosResult: exact match against the lowercase
renamed variant names. -/
def decodeHeosResult (j : Json) : Except String HeosResult :=
  match j with
  | .str s =>
    if s = "success" then .ok .success
    else if s = "fail" then .ok .fail
    else .error "unknown variant for HeosResult"
  | _ => .error "expected string for HeosResult"

/-- heos.rs lines 9-14. -/
structure Header where
  command : String
  result : HeosResult
  message : String
deriving DecidableEq

/-- heos.rs lines 23-32. -/
structure Player where
  name : String
  pid : Int
  model : String
  version : String
  network : String
  lineout : Nat
  serial : String
deriving DecidableEq

/-- heos.rs lines 3-7. -/
structure Response (Payload : Type) where
  heos : Header
  payload : Payload
deriving DecidableEq

def decodeString (j : Json) : Except String String :=
  match j with
  | .str s => .ok s
  | _ => .error "expected string"

/-- serde_json decoding of an i64 field: integer within the i64 range. -/
def decodeI64 (j : Json) : Except String Int :=
  match j with
  | .num n => if -(2 ^ 63) ≤ n ∧ n < 2 ^ 63 then .ok n else .error "out of range for i64"
  | _ => .error "expected integer"

/-- serde_json decoding of a u8 field: integer within the u8 range. -/
def decodeU8 (j : Json) : Except String Nat :=
  match j with
  | .num n => if 0 ≤ n ∧ n < 256 then .ok n.toNat else .error "out of range for u8"
  | _ => .error "expected integer"

/-- A required struct field: derived serde deserializers error on a missing
field and ignore unknown fields (no deny-unknown-fields attribute is set). -/
def reqField (j : Json) (key : String) (dec : Json → Except String A) : Except String A :=
  match j.getField key with
  | some v => dec v
  | none => .error ("missing field " ++ key)

/-- Derived deserializer for Header: three required fields. -/
def decodeHeader (j : Json) : Except String Header := do
  let command ← reqField j "command" decodeString
  let result ← reqField j "result" decodeHeosResult
  let message ← reqField j "message" decodeString
  return ⟨command, result, message⟩

/-- Derived deserializer for Player: seven required fields. -/
def decodePlayer (j : Json) : Except String Player := do
  let name ← reqField j "name" decodeString
  let pid ← reqField j "pid" decodeI64
  let model ← reqField j "model" decodeString
  let version ← reqField j "version" decodeString
  let network ← reqField j "network" decodeString
  let lineout ← reqField j "lineout" decodeU8
  let serial ← reqField j "serial" decodeString
  return ⟨name, pid, model, version, network, lineout, serial⟩

/-- serde decoding of a Vec: a JSON array, every element decoded. -/
def decodeList (dec : Json → Except String A) (j : Json) : Except String (List A) :=
  match j with
  | .arr elems => elems.mapM dec
  | _ => .error "expected array"

/-- serde decoding of the Rust unit type: JSON null. -/
def decodeUnit (j : Json) : Except String Unit :=
  match j with
  | .null => .ok ()
  | _ => .error "expected null"

/-- Derived deserializer for the generic response envelope: both the header
and the payload field are required and fully decoded. -/
def decodeResponse (decPayload : Json → Except String A) (j : Json) : Except String (Response A) := do
  let heos ← reqField j "heos" decodeHeader
  let payload ← reqField j "payload" decPayload
  return ⟨heos, payload⟩

/-- main.rs lines 59-79: the Input value enum. -/
inductive Input where
  | CblSat
  | MediaPlayer
  | BluRay
  | Game
  | Aux1
  | Aux2
  | Phono
  | TvAudio
  | Tuner
  | Usb
  | Bluetooth
  | InternetRadio
  | Net
deriving DecidableEq, Fintype

/-- main.rs lines 80-98. -/
def Input.to_protocol_name : Input → String
  | .CblSat => "CBLSAT"
  | .MediaPlayer => "MPLAY"
  | .BluRay => "BD"
  | .Game => "GAME"
  | .Aux1 => "AUX1"
  | .Aux2 => "AUX2"
  | .Phono => "PHONO"
  | .TvAudio => "TV"
  | .Tuner => "TUNER"
  | .Usb => "USB"
  | .Bluetooth => "BT"
  | .InternetRadio => "IRADIO"
  | .Net => "NET"

/-- A TCP connection handle: an identity plus the endpoint it was opened to.
A Rust try_clone duplicates the OS handle onto the same underlying socket, so
a clone is represented by the same value. -/
structure Conn where
  id : Nat
  host : String
  port : Nat
deriving DecidableEq

/-- Outcome of one TcpStream connect attempt, scripted by the environment. -/
inductive ConnOutcome where
  | ok (id : Nat)
  | fail (e : String)
deriving DecidableEq

/-- main.rs lines 100-104: struct Denon. -/
structure Denon where
  host : String
  text_session : Option Conn
  heos_session : Option Conn
deriving DecidableEq

/-- main.rs lines 106-112. -/
def Denon.with_host (host : String) : Denon := ⟨host, none, none⟩

/-- The world outside the process: pending TCP connect outcomes (consumed in
order), the chronological trace of socket writes as (destination handle,
exact bytes written), the JSON values the HEOS socket will deliver to a
reader, and the background readers spawned so far, each recorded with the
socket it tails and its delimiter byte. -/
structure W where
  connects : List ConnOutcome
  writes : List (Conn × String)
  heosIn : List Json
  spawned : List (Conn × Nat)

/-- Errors surfaced by the tool. The Rust code wraps most of these in eyre
report strings; the protocolFail case carries the decoded envelope header,
which is what the eyre message formats. -/
inductive Err where
  | connErr (e : String)
  | decodeErr (e : String)
  | protocolFail (h : Header)
  | notFound (e : String)
  | readlineErr (e : String)
  | blocked
deriving DecidableEq

/-- TcpStream connect to (host, port): one attempt, consuming the next
scripted outcome; a failure is returned to the caller as is. -/
def tcp_connect (host : String) (port : Nat) (w : W) : Except Err (Conn × W) :=
  match w.connects with
  | [] => .error (.connErr "no connect outcome scripted")
  | .ok id :: rest => .ok (⟨id, host, port⟩, { w with connects := rest })
  | .fail e :: _ => .error (.connErr e)

/-- main.rs lines 113-118: lazily connect the text session (port 23) and
cache it; later calls return the cached handle unchanged. -/
def Denon.connect_text (d : Denon) (w : W) : Except Err (Conn × Denon × W) :=
  match d.text_session with
  | some c => .ok (c, d, w)
  | none =>
    match tcp_connect d.host 23 w with
    | .error e => .error e
    | .ok (c, w1) => .ok (c, { d with text_session := some c }, w1)

/-- main.rs lines 119-124: lazily connect the HEOS session (port 1255) and
cache it; later calls return the cached handle unchanged. -/
def Denon.connect_heos (d : Denon) (w : W) : Except Err (Conn × Denon × W) :=
  match d.heos_session with
  | some c => .ok (c, d, w)
  | none =>
    match tcp_connect d.host 1255 w with
    | .error e => .error e
    | .ok (c, w1) => .ok (c, { d with heos_session := some c }, w1)

/-- A writeln call on a socket: the exact bytes are the formatted line
followed by one linefeed byte (Rust writeln always appends a bare newline,
never a carriage return pair). -/
def writeLine (c : Conn) (s : String) (w : W) : W :=
  { w with writes := w.writes ++ [(c, s ++ "\n")] }

/-- main.rs lines 125-131. -/
def Denon.select_input (d : Denon) (input : Input) (w : W) : Except Err (Unit × Denon × W) :=
  match d.connect_text w with
  | .error e => .error e
  | .ok (c, d1, w1) => .ok ((), d1, writeLine c ("SI" ++ input.to_protocol_name) w1)

/-- main.rs lines 132-138. -/
def Denon.video_select (d : Denon) (input : Input) (w : W) : Except Err (Unit × Denon × W) :=
  match d.connect_text w with
  | .error e => .error e
  | .ok (c, d1, w1) => .ok ((), d1, writeLine c ("SV" ++ input.to_protocol_name) w1)

/-- One rustyline readline outcome at the interactive prompt. -/
inductive RlEvent where
  | line (s : String)
  | eof
  | err (e : String)

/-- Foreground prompt loop of main.rs lines 174-180: end-of-input returns Ok,
any other readline error propagates, and each entered line is written,
newline-terminated, to the given socket handle. An exhausted event list
models a prompt still blocked waiting for input. -/
def shell_loop (c : Conn) : List RlEvent → W → Except Err (Unit × W)
  | [], _ => .error .blocked
  | .eof :: _, w => .ok ((), w)
  | .err e :: _, _ => .error (.readlineErr e)
  | .line s :: rest, w => shell_loop c rest (writeLine c s w)

/-- main.rs lines 158-181: spawns one background reader tailing a clone of
the stream argument with the given delimiter byte, then runs the foreground
loop writing to the handle returned by connect_text (not to the stream
argument). The rustyline editor and printer setup is modeled as infallible. -/
def Denon.shell_helper (d : Denon) (stream : Conn) (split : Nat) (inputs : List RlEvent) (w : W) : Except Err (Unit × Denon × W) :=
  let w1 := { w with spawned := w.spawned ++ [(stream, split)] }
  match d.connect_text w1 with
  | .error e => .error e
  | .ok (c, d1, w2) =>
    match shell_loop c inputs w2 with
    | .error e => .error e
    | .ok ((), w3) => .ok ((), d1, w3)

/-- main.rs lines 139-146: an explicit command is written to the text
session; otherwise the interactive shell runs with delimiter byte 13 (a
carriage return) on a clone of the text session. -/
def Denon.text_command (d : Denon) (command : Option String) (inputs : List RlEvent) (w : W) : Except Err (Unit × Denon × W) :=
  match command with
  | some command =>
    match d.connect_text w with
    | .error e => .error e
    | .ok (c, d1, w1) => .ok ((), d1, writeLine c command w1)
  | none =>
    match d.connect_text w with
    | .error e => .error e
    | .ok (c, d1, w1) => d1.shell_helper c 13 inputs w1

/-- main.rs lines 147-157: an explicit URL is written to the HEOS session;
otherwise, after an optional subscription line, the interactive shell runs
with delimiter byte 10 (a linefeed) on a clone of the HEOS session. -/
def Denon.heos_command (d : Denon) (url : Option String) (subscribe : Bool) (inputs : List RlEvent) (w : W) : Except Err (Unit × Denon × W) :=
  match url with
  | some url =>
    match d.connect_heos w with
    | .error e => .error e
    | .ok (c, d1, w1) => .ok ((), d1, writeLine c url w1)
  | none =>
    match d.connect_heos w with
    | .error e => .error e
    | .ok (c, d1, w1) =>
      let w2 := if subscribe then writeLine c "heos://system/register_for_change_events?enable=on" w1 else w1
      d1.shell_helper c 10 inputs w2

/-- main.rs lines 182-191: write the get_players line, read exactly one JSON
value from the HEOS stream, decode the full envelope, then branch on the
result discriminator. -/
def Denon.get_players (d : Denon) (w : W) : Except Err (List Player × Denon × W) :=
  match d.connect_heos w with
  | .error e => .error e
  | .ok (c, d1, w1) =>
    let w2 := writeLine c "heos://player/get_players" w1
    match w2.heosIn with
    | [] => .error (.decodeErr "EOF while parsing a value")
    | j :: rest =>
      match decodeResponse (decodeList decodePlayer) j with
      | .error e => .error (.decodeErr e)
      | .ok r =>
        if r.heos.result = .fail then .error (.protocolFail r.heos)
        else .ok (r.payload, d1, { w2 with heosIn := rest })

/-- main.rs lines 192-198. -/
def Denon.get_first_player_id (d : Denon) (w : W) : Except Err (Int × Denon × W) :=
  match d.get_players w with
  | .error e => .error e
  | .ok (players, d1, w1) =>
    match players with
    | [] => .error (.notFound "no players were returned from heos")
    | p :: _ => .ok (p.pid, d1, w1)

/-- main.rs lines 199-216: resolve the pid if absent, write the play_stream
line with the pid and the caller URL interpolated verbatim, read exactly one
JSON value, decode a unit-payload envelope, branch on the result. -/
def Denon.play_url (d : Denon) (pid : Option Int) (url : String) (w : W) : Except Err (Unit × Denon × W) :=
  match (match pid with
         | some p => Except.ok (p, d, w)
         | none => d.get_first_player_id w) with
  | .error e => .error e
  | .ok (p, d1, w1) =>
    match d1.connect_heos w1 with
    | .error e => .error e
    | .ok (c, d2, w2) =>
      let w3 := writeLine c ("heos://browse/play_stream?pid=" ++ toString p ++ "&url=" ++ url) w2
      match w3.heosIn with
      | [] => .error (.decodeErr "EOF while parsing a value")
      | j :: rest =>
        match decodeResponse decodeUnit j with
        | .error e => .error (.decodeErr e)
        | .ok r =>
          if r.heos.result = .fail then .error (.protocolFail r.heos)
          else .ok (r.payload, d2, { w3 with heosIn := rest })

end Denounce

namespace Denounce

/-- C2 counterexample: the derived deserializer for the result discriminator
is case-sensitive, so the mixed-case and upper-case spellings the claim says
must decode are rejected. -/
theorem heosResult_reject_mixed_case :
  decodeHeosResult (Json.str "Success") = Except.error "unknown variant for HeosResult" ∧
  decodeHeosResult (Json.str "FAIL") = Except.error "unknown variant for HeosResult" :=
  ⟨rfl, rfl⟩

/-- C2 (amended): decoding the result field succeeds exactly for the
lowercase wire strings, mapping them to the two discriminator values, and
every other string fails to decode. -/
theorem heosResult_decode_exact_lowercase :
  decodeHeosResult (Json.str "success") = Except.ok HeosResult.success ∧
  decodeHeosResult (Json.str "fail") = Except.ok HeosResult.fail ∧
  (∀ s : String, s ≠ "success" → s ≠ "fail" →
    decodeHeosResult (Json.str s) = Except.error "unknown variant for HeosResult") := by
  refine ⟨rfl, rfl, ?_⟩
  intro s h1 h2
  simp [decodeHeosResult, h1, h2]

/-- C2 witness: the exact-lowercase theorem applied at a concrete non-lowercase
string. -/
theorem heosResult_decode_exact_lowercase_witness :
  decodeHeosResult (Json.str "sUccess") = Except.error "unknown variant for HeosResult" :=
  heosResult_decode_exact_lowercase.2.2 "sUccess" (by decide) (by decide)

/-- C4 counterexample: the Input enum has thirteen variants, not twelve. -/
theorem input_variant_count : Fintype.card Input = 13 ∧ Fintype.card Input ≠ 12 := by
  constructor <;> decide

/-- C4 (amended): to_protocol_name is a total pure function on all thirteen
Input variants (totality is by construction), it is injective, every token is
a nonempty string of uppercase letters and digits, and each variant produces
its documented fixed token. -/
theorem to_protocol_name_injective_uppercase :
  Function.Injective Input.to_protocol_name ∧
  (∀ i : Input, (Input.to_protocol_name i).length > 0 ∧
    ((Input.to_protocol_name i).toList.all fun ch => ch.isUpper || ch.isDigit) = true) ∧
  Input.to_protocol_name Input.CblSat = "CBLSAT" ∧
  Input.to_protocol_name Input.MediaPlayer = "MPLAY" ∧
  Input.to_protocol_name Input.BluRay = "BD" ∧
  Input.to_protocol_name Input.Game = "GAME" ∧
  Input.to_protocol_name Input.Aux1 = "AUX1" ∧
  Input.to_protocol_name Input.Aux2 = "AUX2" ∧
  Input.to_protocol_name Input.Phono = "PHONO" ∧
  Input.to_protocol_name Input.TvAudio = "TV" ∧
  Input.to_protocol_name Input.Tuner = "TUNER" ∧
  Input.to_protocol_name Input.Usb = "USB" ∧
  Input.to_protocol_name Input.Bluetooth = "BT" ∧
  Input.to_protocol_name Input.InternetRadio = "IRADIO" ∧
  Input.to_protocol_name Input.Net = "NET" := by
  refine ⟨?_, by decide, rfl, rfl, rfl, rfl, rfl, rfl, rfl, rfl, rfl, rfl, rfl, rfl, rfl⟩
  decide

/-- C4 witness: injectivity applied at a concrete pair of equal tokens, and
one concrete nonemptiness fact. -/
theorem to_protocol_name_injective_uppercase_witness :
  Input.Net = Input.Net ∧ (Input.to_protocol_name Input.MediaPlayer).length > 0 :=
  ⟨to_protocol_name_injective_uppercase.1
    (show Input.to_protocol_name Input.Net = Input.to_protocol_name Input.Net from rfl),
   (to_protocol_name_injective_uppercase.2.1 Input.MediaPlayer).1⟩

/-- C8: for each protocol the first ensure call opens one TCP connection to
the host and that protocol's fixed port (23 for text, 1255 for HEOS) and
caches it; a later call returns the cached handle with state and world
unchanged; the two caches are independent (each connect touches only its own
session field, visible in the record updates); and a connect failure is
surfaced immediately as an error from the single attempt. -/
theorem session_caching (d : Denon) (w : W) (c : Conn) (id : Nat)
    (rest : List ConnOutcome) (e : String) :
  (d.text_session = some c → d.connect_text w = .ok (c, d, w)) ∧
  (d.heos_session = some c → d.connect_heos w = .ok (c, d, w)) ∧
  (d.text_session = none → w.connects = .ok id :: rest →
    d.connect_text w =
      .ok (⟨id, d.host, 23⟩, { d with text_session := some ⟨id, d.host, 23⟩ },
        { w with connects := rest })) ∧
  (d.heos_session = none → w.connects = .ok id :: rest →
    d.connect_heos w =
      .ok (⟨id, d.host, 1255⟩, { d with heos_session := some ⟨id, d.host, 1255⟩ },
        { w with connects := rest })) ∧
  (d.text_session = none → w.connects = .fail e :: rest →
    d.connect_text w = .error (.connErr e)) ∧
  (d.heos_session = none → w.connects = .fail e :: rest →
    d.connect_heos w = .error (.connErr e)) := by
  refine ⟨fun h1 => ?_, fun h1 => ?_, fun h1 h2 => ?_, fun h1 h2 => ?_,
    fun h1 h2 => ?_, fun h1 h2 => ?_⟩
  · simp [Denon.connect_text, h1]
  · simp [Denon.connect_heos, h1]
  · simp [Denon.connect_text, tcp_connect, h1, h2]
  · simp [Denon.connect_heos, tcp_connect, h1, h2]
  · simp [Denon.connect_text, tcp_connect, h1, h2]
  · simp [Denon.connect_heos, tcp_connect, h1, h2]

/-- C8 witness: a fresh connect on the text protocol at a concrete state. -/
theorem session_caching_witness :
  Denon.connect_text ⟨"h", none, none⟩ ⟨[ConnOutcome.ok 7], [], [], []⟩ =
    .ok (⟨7, "h", 23⟩, ⟨"h", some ⟨7, "h", 23⟩, none⟩, ⟨[], [], [], []⟩) :=
  (session_caching ⟨"h", none, none⟩ ⟨[ConnOutcome.ok 7], [], [], []⟩ ⟨0, "", 0⟩ 7 [] "").2.2.1
    rfl rfl

end Denounce

namespace Denounce

/-- C3: on a cached text session as well as on a first connect, select_input
and video_select append exactly one write (the command prefix, the protocol
token, one linefeed byte, which is the platform newline on the targeted
system) to the text-session handle, and change nothing else: no read, no
write to the HEOS session, heos_session and the pending HEOS input are
untouched, as the result records show. -/
theorem select_video_exact_write (d : Denon) (w : W) (c : Conn) (input : Input)
    (id : Nat) (rest : List ConnOutcome) :
  (d.text_session = some c →
    d.select_input input w = .ok ((), d,
      { w with writes := w.writes ++ [(c, "SI" ++ input.to_protocol_name ++ "\n")] }) ∧
    d.video_select input w = .ok ((), d,
      { w with writes := w.writes ++ [(c, "SV" ++ input.to_protocol_name ++ "\n")] })) ∧
  (d.text_session = none → w.connects = .ok id :: rest →
    d.select_input input w = .ok ((), { d with text_session := some ⟨id, d.host, 23⟩ },
      { w with connects := rest,
               writes := w.writes ++ [(⟨id, d.host, 23⟩, "SI" ++ input.to_protocol_name ++ "\n")] }) ∧
    d.video_select input w = .ok ((), { d with text_session := some ⟨id, d.host, 23⟩ },
      { w with connects := rest,
               writes := w.writes ++ [(⟨id, d.host, 23⟩, "SV" ++ input.to_protocol_name ++ "\n")] })) := by
  constructor
  · intro h1
    constructor
    · simp [Denon.select_input, Denon.connect_text, writeLine, h1]
    · simp [Denon.video_select, Denon.connect_text, writeLine, h1]
  · intro h1 h2
    constructor
    · simp [Denon.select_input, Denon.connect_text, tcp_connect, writeLine, h1, h2]
    · simp [Denon.video_select, Denon.connect_text, tcp_connect, writeLine, h1, h2]

/-- C3 witness: both operations evaluated on a concrete cached session. -/
theorem select_video_exact_write_witness :
  Denon.select_input ⟨"h", some ⟨0, "h", 23⟩, none⟩ Input.MediaPlayer ⟨[], [], [], []⟩ =
    .ok ((), ⟨"h", some ⟨0, "h", 23⟩, none⟩, ⟨[], [(⟨0, "h", 23⟩, "SIMPLAY\n")], [], []⟩) ∧
  Denon.video_select ⟨"h", some ⟨0, "h", 23⟩, none⟩ Input.TvAudio ⟨[], [], [], []⟩ =
    .ok ((), ⟨"h", some ⟨0, "h", 23⟩, none⟩, ⟨[], [(⟨0, "h", 23⟩, "SVTV\n")], [], []⟩) :=
  ⟨((select_video_exact_write ⟨"h", some ⟨0, "h", 23⟩, none⟩ ⟨[], [], [], []⟩ ⟨0, "h", 23⟩
      Input.MediaPlayer 0 []).1 rfl).1,
   ((select_video_exact_write ⟨"h", some ⟨0, "h", 23⟩, none⟩ ⟨[], [], [], []⟩ ⟨0, "h", 23⟩
      Input.TvAudio 0 []).1 rfl).2⟩

/-- Running the foreground loop over a block of entered lines writes each
line, newline-terminated, to the given handle, in order. -/
theorem shell_loop_lines (c : Conn) (ss : List String) (evs : List RlEvent) (w : W) :
  shell_loop c (ss.map RlEvent.line ++ evs) w =
    shell_loop c evs { w with writes := w.writes ++ ss.map fun s => (c, s ++ "\n") } := by
  induction ss generalizing w with
  | nil => simp
  | cons s rest ih => simp [shell_loop, writeLine, ih]

/-- C9: in the interactive shell bridge, end-of-input at the prompt (after
any block of entered lines) returns success, independently of the background
reader, which only appears in the spawned record; any other readline error is
propagated as a failure. -/
theorem shell_eof_returns_ok (d : Denon) (w : W) (stream c : Conn) (split : Nat)
    (ss : List String) (e : String) (restEv : List RlEvent)
    (hc : d.text_session = some c) :
  d.shell_helper stream split (ss.map RlEvent.line ++ RlEvent.eof :: restEv) w =
    .ok ((), d, { w with
      spawned := w.spawned ++ [(stream, split)],
      writes := w.writes ++ ss.map fun s => (c, s ++ "\n") }) ∧
  d.shell_helper stream split (ss.map RlEvent.line ++ RlEvent.err e :: restEv) w =
    .error (.readlineErr e) := by
  constructor <;>
    simp [Denon.shell_helper, Denon.connect_text, hc, shell_loop_lines, shell_loop]

/-- C9 witness: a concrete session on a cached text connection, two lines then
end-of-input. -/
theorem shell_eof_returns_ok_witness :
  Denon.shell_helper ⟨"h", some ⟨0, "h", 23⟩, none⟩ ⟨0, "h", 23⟩ 13
      [RlEvent.line "PWON", RlEvent.line "MV50", RlEvent.eof] ⟨[], [], [], []⟩ =
    .ok ((), ⟨"h", some ⟨0, "h", 23⟩, none⟩,
      ⟨[], [(⟨0, "h", 23⟩, "PWON\n"), (⟨0, "h", 23⟩, "MV50\n")], [], [(⟨0, "h", 23⟩, 13)]⟩) :=
  (shell_eof_returns_ok ⟨"h", some ⟨0, "h", 23⟩, none⟩ ⟨[], [], [], []⟩ ⟨0, "h", 23⟩ ⟨0, "h", 23⟩
    13 ["PWON", "MV50"] "" [] rfl).1

/-- C1 divergence, evaluated: in HEOS raw mode with no argument, the spawned
background reader tails the HEOS socket (port 1255), but the line the user
enters at the prompt is written to a freshly opened text-protocol socket
(port 23), because the foreground loop of shell_helper writes to the handle
returned by connect_text rather than to its stream argument. The two handles
differ. -/
theorem heos_shell_writes_to_text_socket :
  Denon.heos_command (Denon.with_host "h") none false
      [RlEvent.line "heos://player/get_players", RlEvent.eof]
      ⟨[ConnOutcome.ok 1, ConnOutcome.ok 2], [], [], []⟩ =
    .ok ((), ⟨"h", some ⟨2, "h", 23⟩, some ⟨1, "h", 1255⟩⟩,
      ⟨[], [(⟨2, "h", 23⟩, "heos://player/get_players\n")], [], [(⟨1, "h", 1255⟩, 10)]⟩) ∧
  (⟨2, "h", 23⟩ : Conn) ≠ ⟨1, "h", 1255⟩ :=
  ⟨rfl, by decide⟩

end Denounce

namespace Denounce

/-- The example player record of the specification, as wire JSON. -/
def goodPlayerJson : Json :=
  Json.obj [("name", Json.str "Living Room"), ("pid", Json.num 1), ("model", Json.str "X"),
    ("version", Json.str "1"), ("network", Json.str "wired"), ("lineout", Json.num 1),
    ("serial", Json.str "S1")]

/-- The example player record, decoded. -/
def goodPlayer : Player := ⟨"Living Room", 1, "X", "1", "wired", 1, "S1"⟩

/-- A successful get_players envelope with one player. -/
def playersSuccessJson : Json :=
  Json.obj [("heos", Json.obj [("command", Json.str "player/get_players"),
    ("result", Json.str "success"), ("message", Json.str "")]),
    ("payload", Json.arr [goodPlayerJson])]

/-- A successful get_players envelope with an empty player list. -/
def playersEmptyJson : Json :=
  Json.obj [("heos", Json.obj [("command", Json.str "player/get_players"),
    ("result", Json.str "success"), ("message", Json.str "")]),
    ("payload", Json.arr [])]

/-- A failed envelope whose payload is not a player list. -/
def failBadPayloadJson : Json :=
  Json.obj [("heos", Json.obj [("command", Json.str "player/get_players"),
    ("result", Json.str "fail"), ("message", Json.str "boom")]),
    ("payload", Json.num 42)]

/-- A successful unit-payload envelope, as answered to play_stream. -/
def unitSuccessJson : Json :=
  Json.obj [("heos", Json.obj [("command", Json.str "browse/play_stream"),
    ("result", Json.str "success"), ("message", Json.str "")]),
    ("payload", Json.null)]

/-- C6 counterexample: with the result field set to the wire string for Fail
but a payload that is not a player list, get_players fails with a decode
error, not with the protocol error carrying the decoded header that the claim
promises for any payload shape: the code decodes the full envelope before it
looks at the result discriminator. -/
theorem get_players_fail_shape_counterexample :
  Denon.get_players ⟨"h", none, some ⟨1, "h", 1255⟩⟩ ⟨[], [], [failBadPayloadJson], []⟩ =
    .error (.decodeErr "expected array") ∧
  ¬ (Denon.get_players ⟨"h", none, some ⟨1, "h", 1255⟩⟩ ⟨[], [], [failBadPayloadJson], []⟩ =
    .error (.protocolFail ⟨"player/get_players", .fail, "boom"⟩)) := by
  constructor
  · rfl
  · intro h
    exact Err.noConfusion (Except.error.inj h)

/-- C6 (amended): get_players writes the get_players line to the HEOS
session, reads exactly one JSON value; when the full envelope (player-list
payload included) decodes and its result is Fail it fails with the protocol
error carrying the decoded header; when the payload does not decode as a
player list it fails with a decode error instead; and on Success it returns
the decoded payload list unchanged. -/
theorem get_players_spec (d : Denon) (w : W) (c : Conn) (j : Json) (rest : List Json)
    (hc : d.heos_session = some c) (hin : w.heosIn = j :: rest) :
  (∀ e, decodeResponse (decodeList decodePlayer) j = .error e →
    d.get_players w = .error (.decodeErr e)) ∧
  (∀ r, decodeResponse (decodeList decodePlayer) j = .ok r →
    (r.heos.result = .fail → d.get_players w = .error (.protocolFail r.heos)) ∧
    (r.heos.result = .success →
      d.get_players w = .ok (r.payload, d,
        { w with writes := w.writes ++ [(c, "heos://player/get_players\n")],
                 heosIn := rest }))) := by
  constructor
  · intro e hdec
    simp [Denon.get_players, Denon.connect_heos, hc, writeLine, hin, hdec]
  · intro r hdec
    constructor
    · intro hres
      simp [Denon.get_players, Denon.connect_heos, hc, writeLine, hin, hdec, hres]
    · intro hres
      simp [Denon.get_players, Denon.connect_heos, hc, writeLine, hin, hdec, hres]

/-- C6 witness: a concrete successful run on the specification's example
envelope. -/
theorem get_players_spec_witness :
  Denon.get_players ⟨"h", none, some ⟨1, "h", 1255⟩⟩ ⟨[], [], [playersSuccessJson], []⟩ =
    .ok ([goodPlayer], ⟨"h", none, some ⟨1, "h", 1255⟩⟩,
      ⟨[], [(⟨1, "h", 1255⟩, "heos://player/get_players\n")], [], []⟩) :=
  ((get_players_spec ⟨"h", none, some ⟨1, "h", 1255⟩⟩ ⟨[], [], [playersSuccessJson], []⟩
    ⟨1, "h", 1255⟩ playersSuccessJson [] rfl rfl).2
    ⟨⟨"player/get_players", .success, ""⟩, [goodPlayer]⟩ rfl).2 rfl

/-- Helper: a full successful get_players run, as one equality. -/
theorem get_players_run (d : Denon) (w : W) (c : Conn) (j : Json) (rest : List Json)
    (r : Response (List Player))
    (hc : d.heos_session = some c) (hin : w.heosIn = j :: rest)
    (hdec : decodeResponse (decodeList decodePlayer) j = .ok r)
    (hres : r.heos.result = .success) :
  d.get_players w = .ok (r.payload, d,
    { w with writes := w.writes ++ [(c, "heos://player/get_players\n")],
             heosIn := rest }) := by
  simp [Denon.get_players, Denon.connect_heos, hc, writeLine, hin, hdec, hres]

/-- C7: get_first_player_id calls get_players; whenever that run returns an
empty list it fails with the not-found error, and whenever the list is
non-empty it returns the pid of the first element in the order the device
sent it, passing the rest of the run state through unchanged. -/
theorem get_first_player_id_spec (d : Denon) (w : W) (players : List Player)
    (d1 : Denon) (w1 : W)
    (h : d.get_players w = .ok (players, d1, w1)) :
  (players = [] →
    d.get_first_player_id w = .error (.notFound "no players were returned from heos")) ∧
  (∀ p ps, players = p :: ps → d.get_first_player_id w = .ok (p.pid, d1, w1)) := by
  constructor
  · intro hnil
    subst hnil
    simp [Denon.get_first_player_id, h]
  · intro p ps hcons
    subst hcons
    simp [Denon.get_first_player_id, h]

/-- C7 witness: the first pid of the specification's example list, and the
not-found failure on an empty list. -/
theorem get_first_player_id_spec_witness :
  Denon.get_first_player_id ⟨"h", none, some ⟨1, "h", 1255⟩⟩ ⟨[], [], [playersSuccessJson], []⟩ =
    .ok (1, ⟨"h", none, some ⟨1, "h", 1255⟩⟩,
      ⟨[], [(⟨1, "h", 1255⟩, "heos://player/get_players\n")], [], []⟩) ∧
  Denon.get_first_player_id ⟨"h", none, some ⟨1, "h", 1255⟩⟩ ⟨[], [], [playersEmptyJson], []⟩ =
    .error (.notFound "no players were returned from heos") :=
  ⟨(get_first_player_id_spec ⟨"h", none, some ⟨1, "h", 1255⟩⟩ ⟨[], [], [playersSuccessJson], []⟩
      [goodPlayer] ⟨"h", none, some ⟨1, "h", 1255⟩⟩
      ⟨[], [(⟨1, "h", 1255⟩, "heos://player/get_players\n")], [], []⟩ rfl).2
      goodPlayer [] rfl,
   (get_first_player_id_spec ⟨"h", none, some ⟨1, "h", 1255⟩⟩ ⟨[], [], [playersEmptyJson], []⟩
      [] ⟨"h", none, some ⟨1, "h", 1255⟩⟩
      ⟨[], [(⟨1, "h", 1255⟩, "heos://player/get_players\n")], [], []⟩ rfl).1 rfl⟩

end Denounce

namespace Denounce

/-- C5: play_url with an explicit pid issues no resolution step: its only
writes are the single play_stream line. With pid absent it first runs
get_players (through get_first_player_id), and only then writes the
play_stream line with the resolved first pid and the caller URL interpolated
verbatim (plain string concatenation around the ampersand and equals signs),
in that order; one further unit-payload envelope is then decoded and only its
result decides success or failure. -/
theorem play_url_resolution_order (d : Denon) (w : W) (c : Conn) (url : String)
    (hc : d.heos_session = some c) :
  (∀ p : Int, ∀ j rest, w.heosIn = j :: rest →
    ∀ r2, decodeResponse decodeUnit j = .ok r2 →
      (r2.heos.result = .success →
        d.play_url (some p) url w = .ok ((), d,
          { w with
            writes := w.writes ++
              [(c, "heos://browse/play_stream?pid=" ++ toString p ++ "&url=" ++ url ++ "\n")],
            heosIn := rest })) ∧
      (r2.heos.result = .fail →
        d.play_url (some p) url w = .error (.protocolFail r2.heos))) ∧
  (∀ j1 j2 rest r1 p ps, w.heosIn = j1 :: j2 :: rest →
    decodeResponse (decodeList decodePlayer) j1 = .ok r1 →
    r1.heos.result = .success →
    r1.payload = p :: ps →
    ∀ r2, decodeResponse decodeUnit j2 = .ok r2 →
      (r2.heos.result = .success →
        d.play_url none url w = .ok ((), d,
          { w with
            writes := w.writes ++ [(c, "heos://player/get_players\n"),
              (c, "heos://browse/play_stream?pid=" ++ toString p.pid ++ "&url=" ++ url ++ "\n")],
            heosIn := rest })) ∧
      (r2.heos.result = .fail →
        d.play_url none url w = .error (.protocolFail r2.heos))) := by
  constructor
  · intro p j rest hin r2 hdec
    constructor
    · intro hres
      simp [Denon.play_url, Denon.connect_heos, hc, writeLine, hin, hdec, hres]
    · intro hres
      simp [Denon.play_url, Denon.connect_heos, hc, writeLine, hin, hdec, hres]
  · intro j1 j2 rest r1 p ps hin hdec1 hres1 hpay r2 hdec2
    have hfp : d.get_first_player_id w = .ok (p.pid, d,
        { w with writes := w.writes ++ [(c, "heos://player/get_players\n")],
                 heosIn := j2 :: rest }) := by
      have hgp := get_players_run d w c j1 (j2 :: rest) r1 hc hin hdec1 hres1
      simp [Denon.get_first_player_id, hgp, hpay]
    constructor
    · intro hres2
      simp [Denon.play_url, hfp, Denon.connect_heos, hc, writeLine, hdec2, hres2]
    · intro hres2
      simp [Denon.play_url, hfp, Denon.connect_heos, hc, writeLine, hdec2, hres2]

/-- C5 witness: a concrete run with no pid given, over the example player
list and a successful unit envelope: the two lines appear in resolution
order and the call succeeds. -/
theorem play_url_resolution_order_witness :
  Denon.play_url ⟨"h", none, some ⟨1, "h", 1255⟩⟩ none "http://x"
      ⟨[], [], [playersSuccessJson, unitSuccessJson], []⟩ =
    .ok ((), ⟨"h", none, some ⟨1, "h", 1255⟩⟩,
      ⟨[], [(⟨1, "h", 1255⟩, "heos://player/get_players\n"),
        (⟨1, "h", 1255⟩, "heos://browse/play_stream?pid=1&url=http://x\n")], [], []⟩) :=
  ((play_url_resolution_order ⟨"h", none, some ⟨1, "h", 1255⟩⟩
      ⟨[], [], [playersSuccessJson, unitSuccessJson], []⟩ ⟨1, "h", 1255⟩ "http://x" rfl).2
    playersSuccessJson unitSuccessJson [] ⟨⟨"player/get_players", .success, ""⟩, [goodPlayer]⟩
    goodPlayer [] rfl rfl rfl rfl
    ⟨⟨"browse/play_stream", .success, ""⟩, ()⟩ rfl).1 rfl

/-- C10: with an explicit pid, play_url reads nothing before its single
write: any successful run leaves the Denon state (in particular the text
session field) unchanged, appends exactly one write, the play_stream line on
the HEOS handle, consumes exactly one JSON value from the HEOS stream after
that write, consumes no connect outcome, and spawns nothing; a payload that
fails to decode yields a decode error. -/
theorem play_url_explicit_pid_frame (d : Denon) (w : W) (c : Conn) (p : Int) (url : String)
    (j : Json) (rest : List Json)
    (hc : d.heos_session = some c) (hin : w.heosIn = j :: rest) :
  (∀ e, decodeResponse decodeUnit j = .error e →
    d.play_url (some p) url w = .error (.decodeErr e)) ∧
  (∀ x d1 w1, d.play_url (some p) url w = .ok (x, d1, w1) →
    d1 = d ∧
    w1.writes = w.writes ++
      [(c, "heos://browse/play_stream?pid=" ++ toString p ++ "&url=" ++ url ++ "\n")] ∧
    w1.heosIn = rest ∧ w1.connects = w.connects ∧ w1.spawned = w.spawned) := by
  constructor
  · intro e hdec
    simp [Denon.play_url, Denon.connect_heos, hc, writeLine, hin, hdec]
  · intro x d1 w1 h
    simp only [Denon.play_url, Denon.connect_heos, hc, writeLine, hin] at h
    cases hd : decodeResponse decodeUnit j with
    | error e =>
      rw [hd] at h
      simp at h
    | ok r =>
      rw [hd] at h
      by_cases hres : r.heos.result = .fail
      · simp [hres] at h
      · simp [hres] at h
        obtain ⟨hd1, hw1⟩ := h
        subst hd1
        subst hw1
        simp

end Denounce

namespace Denounce

/-- C10 witness: the frame facts of a concrete successful explicit-pid run. -/
theorem play_url_explicit_pid_frame_witness :
  (⟨"h", none, some ⟨1, "h", 1255⟩⟩ : Denon) = ⟨"h", none, some ⟨1, "h", 1255⟩⟩ ∧
  [(⟨1, "h", 1255⟩, "heos://browse/play_stream?pid=5&url=http://x\n")] =
    ([] : List (Conn × String)) ++
      [(⟨1, "h", 1255⟩,
        "heos://browse/play_stream?pid=" ++ toString (5 : Int) ++ "&url=" ++ "http://x" ++ "\n")] ∧
  ([] : List Json) = [] ∧ ([] : List ConnOutcome) = [] ∧ ([] : List (Conn × Nat)) = [] :=
  (play_url_explicit_pid_frame ⟨"h", none, some ⟨1, "h", 1255⟩⟩ ⟨[], [], [unitSuccessJson], []⟩
    ⟨1, "h", 1255⟩ 5 "http://x" unitSuccessJson [] rfl rfl).2 ()
    ⟨"h", none, some ⟨1, "h", 1255⟩⟩
    ⟨[], [(⟨1, "h", 1255⟩, "heos://browse/play_stream?pid=5&url=http://x\n")], [], []⟩ rfl

end Denounce
